import Mathlib

/-!
Shallow embedding of the job connectivity and progress monitor of the
clip-flow-ai GUI: the React effect in the `App` component (WebSocket log
stream at `/ws/logs`, `GET /health` probing with 1 s retries, a 3 s
reconnect backoff), the log-line stage classification in `ws.onmessage`,
the `handleStartJob` submission handler (`POST /start-job`), the
`handleSelectFile` bridge, and the Electron `dialog:openFile` handler.

Event handlers are modelled as a single step function on an explicit
system state; the single-threaded cooperative event loop is modelled by
applying steps sequentially.  I/O that the code merely emits (the POST
of a job submission, the raw lines delivered by the stream) is recorded
in ghost fields (`posts`, `received`) so that properties about it can be
stated.
-/

/-- Test whether the first character list starts the second (helper for
substring containment). -/
def charListStartsWith : List Char → List Char → Bool
  | [], _ => true
  | _ :: _, [] => false
  | a :: as, b :: bs => a == b && charListStartsWith as bs

/-- Does `pat` occur as a contiguous run inside the second list? -/
def charListSub (pat : List Char) : List Char → Bool
  | [] => charListStartsWith pat []
  | c :: rest => charListStartsWith pat (c :: rest) || charListSub pat rest

/-- JS `msg.includes(pat)`: substring containment. -/
def includes (s pat : String) : Bool := charListSub pat.toList s.toList

/-- Stage 0 rule of `ws.onmessage`:
`msg.includes('Initiating download') || msg.includes('found in history')`. -/
def stage0Match (msg : String) : Bool :=
  includes msg "Initiating download" || includes msg "found in history"

/-- Stage 1 rule:
`msg.includes('Transcription') || msg.includes('Loading cached transcript')`. -/
def stage1Match (msg : String) : Bool :=
  includes msg "Transcription" || includes msg "Loading cached transcript"

/-- Stage 2 rule: `msg.includes('Curating') || msg.includes('Curation')`. -/
def stage2Match (msg : String) : Bool :=
  includes msg "Curating" || includes msg "Curation"

/-- Stage 3 rule: `msg.includes('Retrieval') || msg.includes('Indexing')`. -/
def stage3Match (msg : String) : Bool :=
  includes msg "Retrieval" || includes msg "Indexing"

/-- Stage 4 rule: `msg.includes('Compositing') || msg.includes('Packaging')`. -/
def stage4Match (msg : String) : Bool :=
  includes msg "Compositing" || includes msg "Packaging"

/-- Completion rule (sets `activeStep` to 5 and ends processing):
`msg.includes('Successfully processed') || msg.includes('Story Mode finished')`. -/
def successMatch (msg : String) : Bool :=
  includes msg "Successfully processed" || includes msg "Story Mode finished"

/-- Error rule (ends processing without touching the stepper):
`msg.includes('ERROR') || msg.includes('PIPELINE ERROR') || msg.includes('No clips found')`. -/
def errorMatch (msg : String) : Bool :=
  includes msg "ERROR" || includes msg "PIPELINE ERROR" || includes msg "No clips found"

/-- The `config` React state object (JobConfig). `music_vol` is the numeric
field `0.1`, carried exactly as a rational; it is never computed with. -/
structure Config where
  mode : String
  url : String
  audio_path : String
  script : String
  llm_provider : String
  topic : String
  music_vol : Rat
  blur : Nat
  face_track : Bool
  platform : String
  dry_run : Bool
deriving DecidableEq

/-- The renderer's React state: `activeTab`, `logs`, `error`, `isProcessing`,
`activeStep`, `config`.  `logs` is the LogEntry sequence, `activeStep` the
StageIndex, and `isProcessing` the job-running flag whose `false` value
together with `activeStep` encodes the settled JobOutcome
(`activeStep = 5` after completion means Success). -/
structure AppState where
  activeTab : String
  logs : List String
  error : Option String
  isProcessing : Bool
  activeStep : Nat
  config : Config
deriving DecidableEq

/-- Connection-monitor state of the WebSocket effect: the current socket,
the `reconnectTimer` / `healthCheckTimer` handles (modelled as the pending
delay in milliseconds, `none` when no timer is pending), whether an
`axios.get('/health')` is in flight awaiting its continuation, and whether
the effect cleanup has run.  `socketGen` counts stream connections ever
opened (`new WebSocket(...)` calls). -/
structure MonState where
  socketOpen : Bool
  socketGen : Nat
  reconnectTimer : Option Nat
  healthTimer : Option Nat
  probePending : Bool
  cleanedUp : Bool
deriving DecidableEq

/-- Whole-system state: renderer state, monitor state, plus ghost records of
the submissions POSTed to `/start-job` and the raw lines delivered by the
log stream (for stating observational properties). -/
structure SysState where
  app : AppState
  mon : MonState
  posts : List Config
  received : List String
deriving DecidableEq

/-- The initial `config` React state of `App`. -/
def initialConfig : Config :=
  { mode := "viral", url := "", audio_path := "", script := ""
  , llm_provider := "openai", topic := "General", music_vol := 1 / 10
  , blur := 20, face_track := true, platform := "youtube", dry_run := false }

/-- The initial React state of `App` (default tab `Viral Generator`). -/
def initialAppState : AppState :=
  { activeTab := "Viral Generator", logs := [], error := none
  , isProcessing := false, activeStep := 0, config := initialConfig }

/-- Monitor state right after the effect body runs: `waitForBackend()` has
been called, so one health probe is in flight; no socket, no timers. -/
def initialMonState : MonState :=
  { socketOpen := false, socketGen := 0, reconnectTimer := none
  , healthTimer := none, probePending := true, cleanedUp := false }

/-- Initial whole-system state. -/
def initialSysState : SysState :=
  { app := initialAppState, mon := initialMonState, posts := [], received := [] }

/-- Effect of the `ws.onmessage` rule chain on `activeStep`: the sequential
`if (msg.includes(...)) setActiveStep(k)` statements in source order — the
stage-0..4 rules followed by the completion rule (`setActiveStep(5)`).  With
independent `if` statements the last matching assignment wins. -/
def nextStep (msg : String) (cur : Nat) : Nat :=
  let c0 := if stage0Match msg then 0 else cur
  let c1 := if stage1Match msg then 1 else c0
  let c2 := if stage2Match msg then 2 else c1
  let c3 := if stage3Match msg then 3 else c2
  let c4 := if stage4Match msg then 4 else c3
  if successMatch msg then 5 else c4

/-- Effect of the `ws.onmessage` rule chain on `isProcessing`: the completion
rule and the error rule both call `setIsProcessing(false)`, in source order. -/
def nextProcessing (msg : String) (cur : Bool) : Bool :=
  let c := if successMatch msg then false else cur
  if errorMatch msg then false else c

/-- The `ws.onmessage` handler body: append the raw line to `logs`
(`setLogs(prev => [...prev, msg])`), then run the rule chain; the chain's
stage and completion rules assign `activeStep` and the completion and error
rules assign `isProcessing`, each in source order (see `nextStep` and
`nextProcessing`); no other state is touched. -/
def onMessage (st : AppState) (msg : String) : AppState :=
  { st with logs := st.logs ++ [msg]
          , activeStep := nextStep msg st.activeStep
          , isProcessing := nextProcessing msg st.isProcessing }

/-- Result of a `POST /start-job` call as seen by `handleStartJob`:
either success, or a rejection/network error whose response body may carry
a `detail` field. -/
inductive PostResult where
  | ok
  | err (detail : Option String)
deriving DecidableEq

/-- JS `a || b` on a possibly-absent string: the fallback is used when the
value is absent or the empty string (falsy). -/
def jsOr (a : Option String) (b : String) : String :=
  match a with
  | some s => if s = "" then b else s
  | none => b

/-- Events the handlers of the `App` effect and the UI can receive. -/
inductive Ev where
  | wsOpen
  | wsMessage (msg : String)
  | wsClose
  | wsError
  | reconnectFire
  | healthFire
  | probeDone (ok : Bool)
  | startJobBegin
  | startJobResolve (res : PostResult)
  | selectFileDone (res : Option String)
  | cleanup
deriving DecidableEq

/-- One event-loop step.  Each branch is the corresponding handler body:
`ws.onopen`, `ws.onmessage`, `ws.onclose` (schedules `waitForBackend` after
3000 ms), `ws.onerror` (closes the socket, coalesced with close), a timer
firing (runs `waitForBackend`, i.e. starts a probe), the `/health` request
resolving (on success `connect()` opens a new socket, on failure a 1000 ms
retry timer is set — note no guard against the effect having been cleaned
up, exactly as in the source), the synchronous part of `handleStartJob`,
the continuation of its `await axios.post`, the continuation of
`handleSelectFile`, and the effect cleanup
(`ws.close(); clearTimeout(reconnectTimer); clearTimeout(healthCheckTimer)`). -/
def step (s : SysState) : Ev → SysState
  | .wsOpen =>
      if s.mon.socketOpen then
        { s with app := { s.app with
            logs := s.app.logs ++ ["--- Connected to Backend ---"], error := none } }
      else s
  | .wsMessage msg =>
      if s.mon.socketOpen then
        { s with app := onMessage s.app msg, received := s.received ++ [msg] }
      else s
  | .wsClose =>
      if s.mon.socketOpen then
        { s with mon := { s.mon with socketOpen := false, reconnectTimer := some 3000 } }
      else s
  | .wsError =>
      if s.mon.socketOpen then
        { s with mon := { s.mon with socketOpen := false, reconnectTimer := some 3000 } }
      else s
  | .reconnectFire =>
      match s.mon.reconnectTimer with
      | some _ => { s with mon := { s.mon with reconnectTimer := none, probePending := true } }
      | none => s
  | .healthFire =>
      match s.mon.healthTimer with
      | some _ => { s with mon := { s.mon with healthTimer := none, probePending := true } }
      | none => s
  | .probeDone ok =>
      if s.mon.probePending then
        if ok then
          { s with mon := { s.mon with probePending := false, socketOpen := true
                                     , socketGen := s.mon.socketGen + 1 } }
        else
          { s with mon := { s.mon with probePending := false, healthTimer := some 1000 } }
      else s
  | .startJobBegin =>
      if s.app.isProcessing then s
      else
        let mode := if s.app.activeTab = "Viral Generator" then "viral" else "story"
        { s with
          app := { s.app with isProcessing := true, activeStep := 0, logs := [] }
        , posts := s.posts ++ [{ s.app.config with mode := mode }] }
  | .startJobResolve res =>
      match res with
      | .ok =>
          let mode := if s.app.activeTab = "Viral Generator" then "viral" else "story"
          { s with app := { s.app with
              logs := s.app.logs ++ ["--- Sending Job (" ++ mode ++ ") ---"] } }
      | .err detail =>
          let msg := jsOr detail "Could not contact backend."
          { s with app := { s.app with
              error := some ("ERROR: " ++ msg)
            , logs := s.app.logs ++ ["ERROR: " ++ msg]
            , isProcessing := false } }
  | .selectFileDone res =>
      match res with
      | some p =>
          if p = "" then s
          else { s with app := { s.app with
                   config := { s.app.config with audio_path := p } } }
      | none => s
  | .cleanup =>
      { s with mon := { s.mon with socketOpen := false, reconnectTimer := none
                                 , healthTimer := none, cleanedUp := true } }

/-- The Electron `dialog:openFile` IPC handler: `null` when the dialog is
canceled, otherwise `filePaths[0]`. -/
def openFileDialog (canceled : Bool) (filePaths : List String) : Option String :=
  if canceled then none else filePaths.head?

/-- A stage-or-terminal hint, as the spec describes the Progress Classifier. -/
inductive StageHint where
  | noMatch
  | stage (k : Nat)
  | terminalSuccess
  | terminalFailure
deriving DecidableEq

/-- The keyword table of the `onmessage` rule chain, in source order. -/
def ruleTable : List (List String × StageHint) :=
  [ (["Initiating download", "found in history"], .stage 0)
  , (["Transcription", "Loading cached transcript"], .stage 1)
  , (["Curating", "Curation"], .stage 2)
  , (["Retrieval", "Indexing"], .stage 3)
  , (["Compositing", "Packaging"], .stage 4)
  , (["Successfully processed", "Story Mode finished"], .terminalSuccess)
  , (["ERROR", "PIPELINE ERROR", "No clips found"], .terminalFailure) ]

/-- A line matches a rule when it contains one of its keywords. -/
def ruleMatches (msg : String) (kws : List String) : Bool :=
  kws.any (fun k => includes msg k)

/-- Modelled from the spec: `classify` where the first matching rule in table
order wins per line (the spec's stated precedence).  For comparison with the
behaviour of the sequential rule chain in the source. -/
def classifyFirstMatch (msg : String) : StageHint :=
  match ruleTable.find? (fun r => ruleMatches msg r.1) with
  | some r => r.2
  | none => .noMatch

/-- The `activeStep`-setting rules of the `onmessage` chain, in source order,
each paired with the value it assigns (the completion rule assigns 5). -/
def stepRulesMatches (msg : String) : List (Bool × Nat) :=
  [ (stage0Match msg, 0), (stage1Match msg, 1), (stage2Match msg, 2)
  , (stage3Match msg, 3), (stage4Match msg, 4), (successMatch msg, 5) ]

/-- The value assigned by the last matching `activeStep` rule, if any. -/
def lastMatchStep (msg : String) : Option Nat :=
  (stepRulesMatches msg).foldl (fun acc r => if r.1 then some r.2 else acc) none

/-- The synchronous actions of one `handleStartJob` call, in source order:
guard on `isProcessing`, then `setIsProcessing(true)`, `setActiveStep(0)`,
`setLogs([])`, then the `axios.post('/start-job', payload)`. -/
inductive JobAction where
  | setProcessing (b : Bool)
  | setStep (n : Nat)
  | clearLogs
  | postJob (payload : Config)
deriving DecidableEq

/-- The ordered action list emitted by the synchronous part of
`handleStartJob` (everything up to and including issuing the POST). -/
def startJobSync (st : AppState) : List JobAction :=
  if st.isProcessing then []
  else
    let mode := if st.activeTab = "Viral Generator" then "viral" else "story"
    [ .setProcessing true, .setStep 0, .clearLogs
    , .postJob { st.config with mode := mode } ]

/-- Effect of one `handleStartJob` action on the renderer state (the POST
itself does not change renderer state). -/
def applyJobAction (st : AppState) : JobAction → AppState
  | .setProcessing b => { st with isProcessing := b }
  | .setStep n => { st with activeStep := n }
  | .clearLogs => { st with logs := [] }
  | .postJob _ => st

/-- Replay a list of `handleStartJob` actions on the renderer state. -/
def replayJobActions (st : AppState) (as : List JobAction) : AppState :=
  as.foldl applyJobAction st

/-- The StageIndex values observed by the caller after each processed line. -/
def observedSteps (st : AppState) : List String → List Nat
  | [] => []
  | l :: ls =>
      let st1 := onMessage st l
      st1.activeStep :: observedSteps st1 ls

/-- Process a list of lines in arrival order. -/
def runLines (st : AppState) (ls : List String) : AppState :=
  ls.foldl onMessage st

/-- The example line sequence of the spec (section 8). -/
def exampleLines : List String :=
  ["Initiating download", "Transcription started", "found in history", "Successfully processed"]

/-- Claim C1 counterexample: processing the spec's example lines
`"Initiating download"`, `"Transcription started"`, `"found in history"`,
`"Successfully processed"` from the initial state yields the observed
StageIndex sequence `0, 1, 0, 5` — not `0, 1, 1, final` — and that sequence
is not non-decreasing: the late cache-hit line regresses StageIndex from 1
back to 0. -/
theorem c1_counterexample :
    observedSteps initialAppState exampleLines = [0, 1, 0, 5] ∧
    ¬ List.Chain' (fun a b => a ≤ b) (observedSteps initialAppState exampleLines) := by
  constructor
  · rfl
  · intro h
    rw [show observedSteps initialAppState exampleLines = [0, 1, 0, 5] from rfl] at h
    simp only [List.chain'_cons, List.chain'_singleton, and_true] at h
    omega

/-- Claim C1 (amended): the `onmessage` handler updates StageIndex by plain
assignment, not by a maximum; the example lines yield the StageIndex
sequence `0, 1, 0, 5` with the success outcome (`isProcessing = false`,
`activeStep = 5`, i.e. JobOutcome Success), and a `"found in history"` line
sets StageIndex to 0 from any state, so the late cache-hit hint does
regress StageIndex from 1 back to 0. -/
theorem c1_stage_plain_assignment :
    observedSteps initialAppState exampleLines = [0, 1, 0, 5] ∧
    (runLines initialAppState exampleLines).isProcessing = false ∧
    (runLines initialAppState exampleLines).activeStep = 5 ∧
    (∀ st : AppState, (onMessage st "found in history").activeStep = 0) := by
  refine ⟨rfl, rfl, rfl, fun st => rfl⟩

/-- Claim C2 counterexample: after the terminal line
`"Successfully processed"` settles the success outcome
(`activeStep = 5`, `isProcessing = false`), the stage-1 line
`"Transcription started"` changes StageIndex from 5 to 1 — a later
`Stage(k)` hint does change StageIndex after a terminal hint. -/
theorem c2_counterexample :
    (onMessage initialAppState "Successfully processed").activeStep = 5 ∧
    (onMessage initialAppState "Successfully processed").isProcessing = false ∧
    (onMessage (onMessage initialAppState "Successfully processed")
        "Transcription started").activeStep = 1 ∧
    (onMessage (onMessage initialAppState "Successfully processed")
        "Transcription started").activeStep ≠ 5 := by
  refine ⟨rfl, rfl, rfl, by decide⟩

/-- Claim C2 (amended): after a terminal hint, a further pure stage line
leaves the settled outcome flag (`isProcessing`) unchanged — any line
matching neither the completion nor the error rule preserves
`isProcessing` — but it does change StageIndex: stage hints are applied by
plain assignment even after a terminal line, as a stage-1 line always sets
StageIndex to 1. -/
theorem c2_terminal_outcome_sticky_stage_not :
    ∀ (st : AppState) (msg : String),
      (successMatch msg = false → errorMatch msg = false →
        (onMessage st msg).isProcessing = st.isProcessing) ∧
      (onMessage st "Transcription started").activeStep = 1 := by
  intro st msg
  constructor
  · intro hs he
    show nextProcessing msg st.isProcessing = st.isProcessing
    simp [nextProcessing, hs, he]
  · rfl

/-- Witness for `c2_terminal_outcome_sticky_stage_not` at the state reached
by the terminal line `"Successfully processed"` and the stage line
`"Transcription started"`. -/
theorem c2_terminal_outcome_sticky_stage_not_witness :
    (onMessage (onMessage initialAppState "Successfully processed")
        "Transcription started").isProcessing
      = (onMessage initialAppState "Successfully processed").isProcessing ∧
    (onMessage (onMessage initialAppState "Successfully processed")
        "Transcription started").activeStep = 1 :=
  ⟨(c2_terminal_outcome_sticky_stage_not
      (onMessage initialAppState "Successfully processed") "Transcription started").1 rfl rfl,
   (c2_terminal_outcome_sticky_stage_not
      (onMessage initialAppState "Successfully processed") "Transcription started").2⟩

/-- Claim C3 counterexample: the line
`"Initiating download Transcription"` matches both the stage-0 and the
stage-1 keyword sets; the first matching rule in table order is stage 0,
but the handler leaves `activeStep = 1` from the initial state — the later
matching rule overrode the first one. -/
theorem c3_counterexample :
    classifyFirstMatch "Initiating download Transcription" = StageHint.stage 0 ∧
    initialAppState.activeStep = 0 ∧
    (onMessage initialAppState "Initiating download Transcription").activeStep = 1 := by
  refine ⟨rfl, rfl, rfl⟩

/-- Claim C3 (amended): for every log line, the LAST matching rule in the
fixed ordered table determines the resulting `activeStep` for that line
(with no matching rule, `activeStep` is left as it was): the handler's
independent `if` statements let later matching rules override earlier
ones. -/
theorem c3_last_match_wins :
    ∀ (st : AppState) (msg : String),
      (onMessage st msg).activeStep = (lastMatchStep msg).getD st.activeStep := by
  intro st msg
  show nextStep msg st.activeStep = (lastMatchStep msg).getD st.activeStep
  simp only [nextStep, lastMatchStep, stepRulesMatches, List.foldl]
  cases h0 : stage0Match msg <;> cases h1 : stage1Match msg <;>
    cases h2 : stage2Match msg <;> cases h3 : stage3Match msg <;>
      cases h4 : stage4Match msg <;> cases h5 : successMatch msg <;> rfl

/-- Helper: `handleStartJob` is a no-op on a state whose `isProcessing`
flag is set (the `if (isProcessing) return;` guard). -/
theorem step_startJobBegin_busy (u : SysState) (hu : u.app.isProcessing = true) :
    step u .startJobBegin = u := by
  simp [step, hu]

/-- Claim C4: `handleStartJob` returns immediately when `isProcessing` is
already set, so a second `start()` issued before the first resolves is
ignored with no side effect — the first accepted call POSTs exactly one
submission (the config snapshot with the tab's mode) and the second call
leaves the whole system state, including the list of POSTed submissions,
unchanged. -/
theorem c4_single_active_job :
    ∀ s : SysState,
      s.app.isProcessing = false →
      (step s .startJobBegin).posts
          = s.posts ++ [{ s.app.config with
              mode := if s.app.activeTab = "Viral Generator" then "viral" else "story" }] ∧
      step (step s .startJobBegin) .startJobBegin = step s .startJobBegin := by
  intro s h
  constructor
  · simp [step, h]
  · have h1 : (step s .startJobBegin).app.isProcessing = true := by simp [step, h]
    exact step_startJobBegin_busy _ h1

/-- Witness for `c4_single_active_job` at the initial state. -/
theorem c4_single_active_job_witness :
    (step initialSysState .startJobBegin).posts
        = initialSysState.posts ++ [{ initialSysState.app.config with
            mode := if initialSysState.app.activeTab = "Viral Generator"
                    then "viral" else "story" }] ∧
    step (step initialSysState .startJobBegin) .startJobBegin
        = step initialSysState .startJobBegin :=
  c4_single_active_job initialSysState rfl

/-- Claim C5: an accepted `handleStartJob` call performs
`setIsProcessing(true)`, `setActiveStep(0)` and `setLogs([])` — marking the
job as running with no settled outcome (JobOutcome None), StageIndex 0 and
an empty LogEntry sequence — strictly before the `POST /start-job` request
is issued: the action list ends with the single POST, the prefix before it
contains no POST, and replaying that prefix yields cleared logs, stage 0
and the running flag set. -/
theorem c5_reset_before_post :
    ∀ st : AppState,
      st.isProcessing = false →
      ∃ pre payload,
        startJobSync st = pre ++ [JobAction.postJob payload] ∧
        (∀ q : Config, JobAction.postJob q ∈ pre → False) ∧
        (replayJobActions st pre).logs = [] ∧
        (replayJobActions st pre).activeStep = 0 ∧
        (replayJobActions st pre).isProcessing = true := by
  intro st h
  refine ⟨[.setProcessing true, .setStep 0, .clearLogs],
          { st.config with
              mode := if st.activeTab = "Viral Generator" then "viral" else "story" },
          ?_, ?_, rfl, rfl, rfl⟩
  · simp [startJobSync, h]
  · intro q hq
    simp [List.mem_cons] at hq

/-- Witness for `c5_reset_before_post` at the initial state. -/
theorem c5_reset_before_post_witness :
    ∃ pre payload,
      startJobSync initialAppState = pre ++ [JobAction.postJob payload] ∧
      (∀ q : Config, JobAction.postJob q ∈ pre → False) ∧
      (replayJobActions initialAppState pre).logs = [] ∧
      (replayJobActions initialAppState pre).activeStep = 0 ∧
      (replayJobActions initialAppState pre).isProcessing = true :=
  c5_reset_before_post initialAppState rfl

/-- Claim C6 counterexample: a `POST /start-job` rejection with body
`detail = "missing url"` surfaces the error text
`"ERROR: missing url"`, not exactly `"missing url"`: the handler prefixes
the detail with `ERROR: `. -/
theorem c6_counterexample :
    (step (step initialSysState .startJobBegin)
        (.startJobResolve (.err (some "missing url")))).app.error
      = some "ERROR: missing url" ∧
    some "ERROR: missing url" ≠ (some "missing url" : Option String) := by
  refine ⟨rfl, by decide⟩

/-- Claim C6 (amended): a non-2xx `POST /start-job` response surfaces, once,
the submission-failure text `"ERROR: "` followed by the response body's
`detail` field when present and non-empty (so detail `"missing url"`
surfaces `"ERROR: missing url"`) and by the generic
`"Could not contact backend."` otherwise; exactly one matching log line is
appended, `isProcessing` is reset, and the monitor state (socket and
timers, i.e. ConnectionState) and the list of POSTed submissions stay
exactly as they were — a submission failure never forces a reconnect. -/
theorem c6_surfaced_detail :
    ∀ (s : SysState) (detail : Option String),
      (step s (.startJobResolve (.err detail))).app.error
          = some ("ERROR: " ++ jsOr detail "Could not contact backend.") ∧
      (step s (.startJobResolve (.err detail))).app.logs
          = s.app.logs ++ ["ERROR: " ++ jsOr detail "Could not contact backend."] ∧
      (step s (.startJobResolve (.err detail))).app.isProcessing = false ∧
      (step s (.startJobResolve (.err detail))).mon = s.mon ∧
      (step s (.startJobResolve (.err detail))).posts = s.posts ∧
      (∀ d : String, detail = some d → d ≠ "" →
        jsOr detail "Could not contact backend." = d) := by
  intro s detail
  refine ⟨rfl, rfl, rfl, rfl, rfl, ?_⟩
  intro d hd hne
  subst hd
  simp [jsOr, hne]

/-- Witness for `c6_surfaced_detail` with the spec's HTTP 400 example body. -/
theorem c6_surfaced_detail_witness :
    (step initialSysState (.startJobResolve (.err (some "missing url")))).app.error
        = some ("ERROR: " ++ jsOr (some "missing url") "Could not contact backend.") ∧
    (step initialSysState (.startJobResolve (.err (some "missing url")))).mon
        = initialSysState.mon ∧
    jsOr (some "missing url") "Could not contact backend." = "missing url" :=
  ⟨(c6_surfaced_detail initialSysState (some "missing url")).1,
   (c6_surfaced_detail initialSysState (some "missing url")).2.2.2.1,
   (c6_surfaced_detail initialSysState (some "missing url")).2.2.2.2.2
     "missing url" rfl (by decide)⟩

/-- Helper: resolving a pending `/health` probe successfully runs
`connect()`, opening a new stream connection. -/
theorem step_probeDone_true (u : SysState) (hu : u.mon.probePending = true) :
    step u (.probeDone true)
      = { u with mon := { u.mon with probePending := false, socketOpen := true
                                   , socketGen := u.mon.socketGen + 1 } } := by
  simp [step, hu]

/-- Helper: resolving a pending `/health` probe with a failure schedules the
1000 ms retry timer (the `catch` branch of `waitForBackend`). -/
theorem step_probeDone_false (u : SysState) (hu : u.mon.probePending = true) :
    step u (.probeDone false)
      = { u with mon := { u.mon with probePending := false
                                   , healthTimer := some 1000 } } := by
  simp [step, hu]

/-- Claim C7: when the log stream closes, `ws.onclose` schedules exactly the
single 3000 ms reconnect timer (no stream is opened and no probe started at
that moment, and nothing user-visible changes); the reconnect timer firing
re-enters the health-probe cycle (`waitForBackend`) rather than reopening
the stream; a failed probe is swallowed locally — it schedules the 1000 ms
retry timer and changes nothing user-visible, in particular no error is
surfaced; and the count of stream connections ever opened grows only when a
pending probe resolves successfully. -/
theorem c7_reconnect_cycle :
    ∀ s : SysState,
      (s.mon.socketOpen = true →
        (step s .wsClose).mon.reconnectTimer = some 3000 ∧
        (step s .wsClose).mon.socketOpen = false ∧
        (step s .wsClose).mon.socketGen = s.mon.socketGen ∧
        (step s .wsClose).mon.healthTimer = s.mon.healthTimer ∧
        (step s .wsClose).mon.probePending = s.mon.probePending ∧
        (step s .wsClose).app = s.app) ∧
      (s.mon.reconnectTimer ≠ none →
        (step s .reconnectFire).mon.probePending = true ∧
        (step s .reconnectFire).mon.socketGen = s.mon.socketGen ∧
        (step s .reconnectFire).mon.socketOpen = s.mon.socketOpen) ∧
      (s.mon.probePending = true →
        (step s (.probeDone false)).mon.healthTimer = some 1000 ∧
        (step s (.probeDone false)).mon.socketGen = s.mon.socketGen ∧
        (step s (.probeDone false)).app = s.app) ∧
      (∀ e : Ev, (step s e).mon.socketGen = s.mon.socketGen ∨
        (e = .probeDone true ∧ s.mon.probePending = true)) := by
  intro s
  refine ⟨?_, ?_, ?_, ?_⟩
  · intro h
    simp [step, h]
  · intro h
    cases hr : s.mon.reconnectTimer with
    | none => exact absurd hr h
    | some d => simp [step, hr]
  · intro h
    rw [step_probeDone_false s h]
    exact ⟨rfl, rfl, rfl⟩
  · intro e
    cases e with
    | wsOpen => left; simp only [step]; split <;> rfl
    | wsMessage m => left; simp only [step]; split <;> rfl
    | wsClose => left; simp only [step]; split <;> rfl
    | wsError => left; simp only [step]; split <;> rfl
    | reconnectFire => left; simp only [step]; cases s.mon.reconnectTimer <;> rfl
    | healthFire => left; simp only [step]; cases s.mon.healthTimer <;> rfl
    | probeDone ok =>
        cases ok with
        | false => left; simp only [step]; split <;> rfl
        | true =>
            cases hp : s.mon.probePending with
            | false => left; simp [step, hp]
            | true => right; exact ⟨rfl, rfl⟩
    | startJobBegin => left; simp only [step]; split <;> rfl
    | startJobResolve res => left; cases res with
        | ok => rfl
        | err d => rfl
    | selectFileDone res => left; cases res with
        | none => rfl
        | some p => simp only [step]; split <;> rfl
    | cleanup => left; rfl

/-- Witness state for the reconnect-cycle theorem: one stream was open and
has just closed is simulated by a live socket, a pending 3000 ms reconnect
timer and a pending probe. -/
def sysW7 : SysState :=
  { app := initialAppState
  , mon := { socketOpen := true, socketGen := 1, reconnectTimer := some 3000
           , healthTimer := none, probePending := true, cleanedUp := false }
  , posts := [], received := [] }

/-- Witness for `c7_reconnect_cycle` at the concrete state `sysW7`. -/
theorem c7_reconnect_cycle_witness :
    (step sysW7 .wsClose).mon.reconnectTimer = some 3000 ∧
    (step sysW7 .reconnectFire).mon.probePending = true ∧
    (step sysW7 (.probeDone false)).mon.healthTimer = some 1000 ∧
    ((step sysW7 (.probeDone true)).mon.socketGen = sysW7.mon.socketGen ∨
      (Ev.probeDone true = Ev.probeDone true ∧ sysW7.mon.probePending = true)) :=
  ⟨((c7_reconnect_cycle sysW7).1 rfl).1,
   ((c7_reconnect_cycle sysW7).2.1 (by decide)).1,
   ((c7_reconnect_cycle sysW7).2.2.1 rfl).1,
   (c7_reconnect_cycle sysW7).2.2.2 (.probeDone true)⟩

/-- Claim C8 counterexample: from the initial state (one probe in flight),
running the effect cleanup clears both timers and the socket — but the
still-in-flight probe callback resolving afterwards is not a no-op: on
success it opens a new stream connection, and on failure it schedules a
new 1000 ms timer. -/
theorem c8_counterexample :
    (step initialSysState .cleanup).mon.cleanedUp = true ∧
    (step initialSysState .cleanup).mon.reconnectTimer = none ∧
    (step initialSysState .cleanup).mon.healthTimer = none ∧
    (step initialSysState .cleanup).mon.socketOpen = false ∧
    (step (step initialSysState .cleanup) (.probeDone true)).mon.socketOpen = true ∧
    (step (step initialSysState .cleanup) (.probeDone true)).mon.socketGen
        = initialSysState.mon.socketGen + 1 ∧
    (step (step initialSysState .cleanup) (.probeDone false)).mon.healthTimer
        = some 1000 :=
  ⟨rfl, rfl, rfl, rfl, rfl, rfl, rfl⟩

/-- Claim C8 (amended): the effect cleanup closes the stream handle and
cancels the pending reconnect and probe-retry timers as a unit, and a stale
timer firing after shutdown is a no-op; but an in-flight `/health` probe
callback that completes after shutdown is not guarded: on success it opens
a new stream connection and on failure it schedules a new probe-retry
timer. -/
theorem c8_shutdown_cancels_but_probe_unguarded :
    ∀ s : SysState,
      (step s .cleanup).mon.socketOpen = false ∧
      (step s .cleanup).mon.reconnectTimer = none ∧
      (step s .cleanup).mon.healthTimer = none ∧
      (step s .cleanup).mon.cleanedUp = true ∧
      step (step s .cleanup) .reconnectFire = step s .cleanup ∧
      step (step s .cleanup) .healthFire = step s .cleanup ∧
      (s.mon.probePending = true →
        (step (step s .cleanup) (.probeDone true)).mon.socketOpen = true ∧
        (step (step s .cleanup) (.probeDone false)).mon.healthTimer = some 1000) := by
  intro s
  refine ⟨rfl, rfl, rfl, rfl, rfl, rfl, ?_⟩
  intro hp
  have hp' : (step s .cleanup).mon.probePending = true := hp
  constructor
  · rw [step_probeDone_true _ hp']
  · rw [step_probeDone_false _ hp']

/-- Witness for `c8_shutdown_cancels_but_probe_unguarded` at the initial
state, whose probe is in flight. -/
theorem c8_shutdown_cancels_but_probe_unguarded_witness :
    (step initialSysState .cleanup).mon.reconnectTimer = none ∧
    step (step initialSysState .cleanup) .reconnectFire
        = step initialSysState .cleanup ∧
    (step (step initialSysState .cleanup) (.probeDone true)).mon.socketOpen = true :=
  ⟨(c8_shutdown_cancels_but_probe_unguarded initialSysState).2.1,
   (c8_shutdown_cancels_but_probe_unguarded initialSysState).2.2.2.2.1,
   ((c8_shutdown_cancels_but_probe_unguarded initialSysState).2.2.2.2.2.2 rfl).1⟩

/-- Claim C9 counterexample: before any job starts and before any line is
received from the stream, the `ws.onopen` handler already appends the
synthetic marker `--- Connected to Backend ---`, so the LogEntry sequence
is not exactly the raw lines received from the log stream. -/
theorem c9_counterexample :
    (step (step initialSysState (.probeDone true)) .wsOpen).received = [] ∧
    (step (step initialSysState (.probeDone true)) .wsOpen).app.logs
        = ["--- Connected to Backend ---"] ∧
    (step (step initialSysState (.probeDone true)) .wsOpen).app.logs
        ≠ (step (step initialSysState (.probeDone true)) .wsOpen).received := by
  refine ⟨rfl, rfl, by decide⟩

/-- Claim C9 (amended): the LogEntry sequence is append-only — every event
either leaves it unchanged or appends entries at the end — except for the
single clear performed at the moment a submission is accepted; every raw
line received from the stream is appended verbatim in arrival order; but
the sequence also receives synthetic entries (the connect marker, the
sending-job marker and submission error lines), so it is a superset of,
not equal to, the raw received lines. -/
theorem c9_logs_append_only :
    ∀ (s : SysState) (e : Ev),
      ((∃ t, (step s e).app.logs = s.app.logs ++ t) ∨
        (e = .startJobBegin ∧ s.app.isProcessing = false ∧ (step s e).app.logs = [])) ∧
      (∀ m, e = .wsMessage m → s.mon.socketOpen = true →
        (step s e).app.logs = s.app.logs ++ [m] ∧
        (step s e).received = s.received ++ [m]) := by
  intro s e
  constructor
  · cases e with
    | wsOpen =>
        left
        cases h : s.mon.socketOpen with
        | true => exact ⟨["--- Connected to Backend ---"], by simp [step, h]⟩
        | false => exact ⟨[], by simp [step, h]⟩
    | wsMessage m =>
        left
        cases h : s.mon.socketOpen with
        | true => exact ⟨[m], by simp [step, h, onMessage]⟩
        | false => exact ⟨[], by simp [step, h]⟩
    | wsClose =>
        left; refine ⟨[], ?_⟩; simp only [step]; split <;> simp
    | wsError =>
        left; refine ⟨[], ?_⟩; simp only [step]; split <;> simp
    | reconnectFire =>
        left; refine ⟨[], ?_⟩; simp only [step]
        cases s.mon.reconnectTimer <;> simp
    | healthFire =>
        left; refine ⟨[], ?_⟩; simp only [step]
        cases s.mon.healthTimer <;> simp
    | probeDone ok =>
        left; refine ⟨[], ?_⟩
        cases ok <;> cases h : s.mon.probePending <;> simp [step, h]
    | startJobBegin =>
        cases h : s.app.isProcessing with
        | true => left; exact ⟨[], by simp [step, h]⟩
        | false => right; exact ⟨rfl, rfl, by simp [step, h]⟩
    | startJobResolve res =>
        left
        cases res with
        | ok =>
            exact ⟨["--- Sending Job ("
                     ++ (if s.app.activeTab = "Viral Generator" then "viral" else "story")
                     ++ ") ---"], by simp [step]⟩
        | err d =>
            exact ⟨["ERROR: " ++ jsOr d "Could not contact backend."], by simp [step]⟩
    | selectFileDone res =>
        left; refine ⟨[], ?_⟩
        cases res with
        | none => simp [step]
        | some p => simp only [step]; split <;> simp
    | cleanup => left; exact ⟨[], by simp [step]⟩
  · intro m he hso
    subst he
    constructor <;> simp [step, hso, onMessage]

/-- Witness state for the append-only theorem: the stream is connected. -/
def sysW9 : SysState :=
  { app := initialAppState
  , mon := { socketOpen := true, socketGen := 1, reconnectTimer := none
           , healthTimer := none, probePending := false, cleanedUp := false }
  , posts := [], received := [] }

/-- Witness for `c9_logs_append_only` on a received line at `sysW9`. -/
theorem c9_logs_append_only_witness :
    (step sysW9 (.wsMessage "hello")).app.logs = sysW9.app.logs ++ ["hello"] ∧
    (step sysW9 (.wsMessage "hello")).received = sysW9.received ++ ["hello"] :=
  (c9_logs_append_only sysW9 (.wsMessage "hello")).2 "hello" rfl rfl

/-- Claim C10: a canceled native file-picker dialog makes the
`dialog:openFile` handler resolve to `null`, in which case
`handleSelectFile` leaves the whole state — in particular
`config.audio_path` — unchanged; `audio_path` is overwritten only when the
dialog returned an actual (non-empty) file path, and then it is set to
exactly that path. -/
theorem c10_cancel_keeps_audio_path :
    ∀ (s : SysState) (paths : List String),
      openFileDialog true paths = none ∧
      step s (.selectFileDone (openFileDialog true paths)) = s ∧
      (∀ res : Option String,
        (step s (.selectFileDone res)).app.config.audio_path ≠ s.app.config.audio_path →
        ∃ p, res = some p ∧ p ≠ "" ∧
          (step s (.selectFileDone res)).app.config.audio_path = p) := by
  intro s paths
  refine ⟨rfl, rfl, ?_⟩
  intro res hres
  cases res with
  | none => exact absurd rfl hres
  | some p =>
      by_cases hp : p = ""
      · rw [show step s (.selectFileDone (some p)) = s by simp [step, hp]] at hres
        exact absurd rfl hres
      · exact ⟨p, rfl, hp, by simp [step, hp]⟩

/-- Witness for `c10_cancel_keeps_audio_path`: selecting an actual file
path overwrites `audio_path` with exactly that path. -/
theorem c10_cancel_keeps_audio_path_witness :
    ∃ p, (some "/tmp/voice.mp3" : Option String) = some p ∧ p ≠ "" ∧
      (step initialSysState
          (.selectFileDone (some "/tmp/voice.mp3"))).app.config.audio_path = p :=
  (c10_cancel_keeps_audio_path initialSysState []).2.2
    (some "/tmp/voice.mp3") (by decide)
